import Mathlib

/-!
Verification of the provider-integration pipeline of the weather agent
repository, centred on `app/services/providers/sat_source.py` (the SatSource
complex adapter) and `app/services/llm_client.py` (the resilient transport).

The embedding models Python JSON-like values as the inductive type `JValue`,
with Python truthiness, `dict.get`, the `or` operator, `int()`/`float()`
coercions and `str.format` modelled explicitly.  Machine floats are modelled
as rationals; none of the verified claims depends on floating-point rounding.
-/

namespace SatApp

/-- A Python/JSON value as it appears in provider payloads and registry
configuration.  Python `int` and `float` are kept distinct because
truthiness and `str()` distinguish them; both are modelled over `ℚ`/`ℤ`
(no claim in scope depends on float rounding). -/
inductive JValue where
  | null
  | bool (b : Bool)
  | int (n : ℤ)
  | float (q : ℚ)
  | str (s : String)
  | arr (xs : List JValue)
  | obj (fields : List (String × JValue))

/-- Python truthiness: `None`, `False`, `0`, `0.0`, the empty string, the empty list and the empty dict are falsy. -/
def truthy : JValue → Bool
  | .null => false
  | .bool b => b
  | .int n => decide (n ≠ 0)
  | .float q => decide (q ≠ 0)
  | .str s => decide (s ≠ "")
  | .arr xs => !xs.isEmpty
  | .obj fs => !fs.isEmpty

/-- Python `a or b`: returns `a` when truthy, otherwise `b` (the last operand
is returned verbatim, so an `or`-chain of falsy values yields its final value). -/
def pyOr (a b : JValue) : JValue := if truthy a then a else b

def isObj : JValue → Bool
  | .obj _ => true
  | _ => false

def isArr : JValue → Bool
  | .arr _ => true
  | _ => false

/-- Key lookup in a mapping value: `some v` iff the key is present
(first binding wins, mirroring unique dict keys). Non-mappings hold no keys. -/
def jFind : JValue → String → Option JValue
  | .obj fs, k => fs.lookup k
  | _, _ => none

/-- Python `mapping.get(key)` (default `None`). -/
def jGet (v : JValue) (k : String) : JValue := (jFind v k).getD .null

/-- Python `mapping.get(key, default)`: the default applies only when the key
is absent, not when it is present with value `None`. -/
def jGetD (v : JValue) (k : String) (d : JValue) : JValue := (jFind v k).getD d

/-! ### Structurally recursive string primitives

The corresponding `String` library functions are defined by well-founded
recursion, which the kernel cannot evaluate; these equivalents over
`List Char` make every definition below computable by `decide`/`rfl`. -/

/-- Split a character list on a separator character (Python `s.split(c)`
for a one-character separator: every delimiter used by the adapter is a
single character). -/
def splitOnChar (c : Char) : List Char → List (List Char)
  | [] => [[]]
  | x :: xs =>
      let r := splitOnChar c xs
      if x = c then [] :: r
      else
        match r with
        | [] => [[x]]
        | h :: t => (x :: h) :: t

/-- `s.split(c)` at the `String` level. -/
def sSplitOn (c : Char) (s : String) : List String :=
  (splitOnChar c s.data).map String.mk

/-- Python `str.strip()` (ASCII whitespace; the extra Unicode whitespace
stripped by CPython is not exercised by this pipeline). -/
def sTrim (s : String) : String :=
  String.mk (((s.data.dropWhile Char.isWhitespace).reverse.dropWhile
    Char.isWhitespace).reverse)

/-- Python `str.lower()` (ASCII case folding suffices here). -/
def sToLower (s : String) : String := String.mk (s.data.map Char.toLower)

/-- Python `str.startswith(pat)`. -/
def sStartsWith (s pat : String) : Bool := pat.data.isPrefixOf s.data

/-- Membership of a single-character delimiter: Python `c in s`. -/
def strContainsChar (s : String) (c : Char) : Bool := s.data.contains c

/-- `" | ".join(parts)`-style joining. -/
def joinWith (sep : String) : List String → String
  | [] => ""
  | [x] => x
  | x :: xs => x ++ sep ++ joinWith sep xs

/-- Decimal-digit parsing (the core of `int(str)`/`float(str)`): all
characters must be digits and at least one must be present. -/
def parseNatStr (s : String) : Option ℕ :=
  if s.data ≠ [] && s.data.all Char.isDigit then
    some (s.data.foldl (fun n c => 10 * n + (c.toNat - 48)) 0)
  else none

/-- Substring test for a multi-character needle (used for substring claims
about error messages). -/
def strContains (s pat : String) : Bool :=
  (List.range (s.data.length + 1)).any
    (fun i => pat.data.isPrefixOf (s.data.drop i))

/-- Python `str(value)`.  `repr`-based rendering of lists and dicts is not
reached by any verified claim and is rendered as a tag. Non-integral floats
are rendered as `num/den`, unlike CPython; no claim stringifies one. -/
def pyStr : JValue → String
  | .null => "None"
  | .bool true => "True"
  | .bool false => "False"
  | .int n => toString n
  | .float q => if q.den = 1 then toString q.num ++ ".0" else toString q
  | .str s => s
  | .arr _ => "<list>"
  | .obj _ => "<dict>"

/-- Truncation toward zero, the behaviour of Python `int()` on a float. -/
def pyTruncRat (q : ℚ) : ℤ := if 0 ≤ q then ⌊q⌋ else ⌈q⌉

/-- Integer-literal parsing as done by Python `int(str)`: optional surrounding
whitespace, optional sign, decimal digits.  (Underscore separators accepted by
CPython are not modelled; no claim uses them.) -/
def parseIntStr (s : String) : Option ℤ :=
  match (sTrim s).data with
  | '-' :: rest => (parseNatStr (String.mk rest)).map (fun n => -(n : ℤ))
  | '+' :: rest => (parseNatStr (String.mk rest)).map (fun n => (n : ℤ))
  | t => (parseNatStr (String.mk t)).map (fun n => (n : ℤ))

/-- Python `int(value)`: `none` models the `TypeError`/`ValueError` raised on
inconvertible values. -/
def pyInt : JValue → Option ℤ
  | .null => none
  | .bool b => some (if b then 1 else 0)
  | .int n => some n
  | .float q => some (pyTruncRat q)
  | .str s => parseIntStr s
  | .arr _ => none
  | .obj _ => none

/-- Mantissa of a decimal literal: `"12"`, `"12.5"`, `"12."`, `".5"`. -/
def parseMantissa (s : String) : Option ℚ :=
  match sSplitOn '.' s with
  | [i] => (parseNatStr i).map (fun n => (n : ℚ))
  | [i, f] =>
      if i = "" && f = "" then none
      else
        let iv : Option ℕ := if i = "" then some 0 else parseNatStr i
        let fv : Option ℕ := if f = "" then some 0 else parseNatStr f
        match iv, fv with
        | some a, some b => some ((a : ℚ) + (b : ℚ) / ((10 : ℚ) ^ f.data.length))
        | _, _ => none
  | _ => none

/-- Exponent of a decimal literal: optional sign plus digits. -/
def parseExponent (s : String) : Option ℤ :=
  match s.data with
  | '-' :: rest => (parseNatStr (String.mk rest)).map (fun n => -(n : ℤ))
  | '+' :: rest => (parseNatStr (String.mk rest)).map (fun n => (n : ℤ))
  | t => (parseNatStr (String.mk t)).map (fun n => (n : ℤ))

/-- Float-literal parsing as done by Python `float(str)`: optional whitespace
and sign, decimal mantissa, optional exponent.  (`inf`/`nan` and underscore
separators are not modelled; no claim uses them.) -/
def parseFloatStr (s : String) : Option ℚ :=
  let (sgn, body) : ℚ × List Char :=
    match (sTrim s).data with
    | '-' :: rest => (-1, rest)
    | '+' :: rest => (1, rest)
    | t => (1, t)
  let lower := sToLower (String.mk body)
  match sSplitOn 'e' lower with
  | [m] => (parseMantissa m).map (sgn * ·)
  | [m, ex] =>
      match parseMantissa m, parseExponent ex with
      | some q, some e => some (sgn * q * (10 : ℚ) ^ e)
      | _, _ => none
  | _ => none

/-- Python `float(value)`: `none` models the `TypeError`/`ValueError` raised
on inconvertible values.  This is the body of `_maybe_float` in
`sat_source.py` (which returns `None` on those exceptions). -/
def pyFloat : JValue → Option ℚ
  | .null => none
  | .bool b => some (if b then 1 else 0)
  | .int n => some (n : ℚ)
  | .float q => some q
  | .str s => parseFloatStr s
  | .arr _ => none
  | .obj _ => none

/-! ## Error taxonomy and data model (`app/services/providers/base.py`,
`app/schemas.py`, spec section 3) -/

/-- The provider error taxonomy of `base.py`: `ProviderConfigurationError`
and `ProviderRequestError`.  `uncaught` models a raw Python exception
escaping the adapter (for example `int()` failing on a malformed
`max_region_ids` registry value, which no handler catches). -/
inductive SatError where
  | configError (msg : String)
  | requestError (msg : String)
  | uncaught (msg : String)
deriving DecidableEq

/-- A calendar date.  `date.fromisoformat` in `_coerce_date` only ever sees
`YYYY-MM-DD` texts in this pipeline; validity is checked by the parser. -/
structure IsoDate where
  year : ℕ
  month : ℕ
  day : ℕ
deriving DecidableEq

def isLeapYear (y : ℕ) : Bool :=
  (y % 4 = 0 && y % 100 ≠ 0) || y % 400 = 0

def daysInMonth (y m : ℕ) : ℕ :=
  if m = 2 then (if isLeapYear y then 29 else 28)
  else if m = 4 || m = 6 || m = 9 || m = 11 then 30
  else 31

/-- Zero-padded decimal rendering used by `date.isoformat`. -/
def padNum (width n : ℕ) : String :=
  let s := toString n
  String.mk (List.replicate (width - s.length) '0') ++ s

def IsoDate.isoformat (d : IsoDate) : String :=
  padNum 4 d.year ++ "-" ++ padNum 2 d.month ++ "-" ++ padNum 2 d.day

/-- `date.fromisoformat` on the `YYYY-MM-DD` form: three dash-separated
zero-padded components naming a valid calendar date.  (The additional
ISO-8601 forms accepted by newer CPython are not exercised here.) -/
def parseIsoDate (s : String) : Option IsoDate :=
  match sSplitOn '-' s with
  | [ys, ms, ds] =>
      if ys.data.length = 4 && ms.data.length = 2 && ds.data.length = 2 then
        match parseNatStr ys, parseNatStr ms, parseNatStr ds with
        | some y, some m, some d =>
            if 1 ≤ m && m ≤ 12 && 1 ≤ d && d ≤ daysInMonth y m then
              some ⟨y, m, d⟩
            else none
        | _, _, _ => none
      else none
  | _ => none

/-- `RequestContext` from `app/services/logging.py`, reduced to the only
field the adapter reads. -/
structure RequestContext where
  request_id : String

/-- Modelled from the spec (section 3): the `Location` component of a
`ReportSpec`; the class itself is not under `src/` (the adapter reads only
the name). -/
structure SpecLocation where
  name : String

/-- Modelled from the spec (section 3): the inclusive timeframe of a
`ReportSpec`. `end` is a Lean keyword, hence `end_`. -/
structure SpecTimeframe where
  start : IsoDate
  end_ : IsoDate

/-- Modelled from the spec (section 3): the normalized report specification.
The class is imported by `sat_source.py` from `app.schemas` but its
definition is not under `src/`; the fields below are exactly those the
adapter reads.  A missing/empty reference identifier is modelled as `""`
(both `None` and `""` are falsy in the `if not reference_id` check). -/
structure ReportSpec where
  location : SpecLocation
  timeframe : SpecTimeframe
  metrics : List String
  units : String
  reference_id : String

/-- `WeatherDataPoint` from `app/schemas.py`: three independently optional
metrics. -/
structure WeatherDataPoint where
  date : IsoDate
  temperature_max : Option ℚ
  temperature_min : Option ℚ
  precipitation_probability : Option ℚ
deriving DecidableEq

/-- Modelled from the spec (section 3): the canonical dataset (the
`ProviderDataset` class is imported from `app.schemas` but not under
`src/`).  `source` keeps the raw value the adapter computed. -/
structure ProviderDataset where
  provider_id : String
  source : JValue
  data : List WeatherDataPoint

/-! ## Region resolution (`SatSourceProvider._resolve_region_ids`) -/

/-- `name.split(":", 1)[1]`: everything after the first colon. -/
def afterFirstColon (s : String) : String :=
  joinWith ":" ((sSplitOn ':' s).drop 1)

/-- Split on a delimiter, strip each part, keep the non-empty ones
(`[part for part in parts if part]` after `part.strip()`). -/
def splitTrimNonempty (s : String) (d : Char) : List String :=
  ((sSplitOn d s).map sTrim).filter (fun p => p ≠ "")

/-- The location-name branch of `_resolve_region_ids` (no registry
override): strip, detect the `region:` marker case-insensitively, pick the
first delimiter of the active list occurring in the (marker-stripped) name
and split on it, otherwise return the whole name as the single region.
Every delimiter is a one-character string in the source, so the delimiter
list is modelled as characters. -/
def regionsFromName (rawName : String) : List String :=
  let name := sTrim rawName
  if name = "" then []
  else
    let lowered := sToLower name
    let (name2, delimiters) :=
      if sStartsWith lowered "region:" then
        (afterFirstColon name, ['|', ';', ','])
      else (name, ['|', ';'])
    match delimiters.find? (fun d => strContainsChar name2 d) with
    | some d => splitTrimNonempty name2 d
    | none => [name2]

/-- `_resolve_region_ids`: a truthy `region_ids` registry value must be a
list (else `ProviderConfigurationError`) and is used verbatim after
stripping, dropping empties; otherwise regions derive from the location
name. -/
def resolve_region_ids (config : JValue) (spec : ReportSpec) :
    Except SatError (List String) :=
  let rids := jGet config "region_ids"
  if truthy rids then
    match rids with
    | .arr xs => .ok ((xs.map (fun r => sTrim (pyStr r))).filter (fun p => p ≠ ""))
    | _ => .error (.configError "registry region_ids must be a list")
  else .ok (regionsFromName spec.location.name)

/-! ## Report type and year count (`_resolve_report_type`,
`_resolve_year_count`) -/

def ALLOWED_REPORT_TYPES : List String := ["seasonal", "annual", "multi-year"]

/-- The message of the unsupported-report-type configuration error
(`sorted(ALLOWED_REPORT_TYPES)` renders alphabetically). -/
def reportTypeErrMsg (rt : String) : String :=
  "Unsupported SatSource report_type \x27" ++ rt ++
    "\x27. Allowed values: [\x27annual\x27, \x27multi-year\x27, \x27seasonal\x27]"

/-- `_resolve_report_type`: normalize `config.get("report_type", "seasonal")`
via `str(...).strip().lower()` and require membership in the allowed
enumeration, else `ProviderConfigurationError`. -/
def resolve_report_type (config : JValue) : Except SatError String :=
  let report_type := sToLower (sTrim (pyStr (jGetD config "report_type" (.str "seasonal"))))
  if report_type ∈ ALLOWED_REPORT_TYPES then .ok report_type
  else .error (.configError (reportTypeErrMsg report_type))

/-- `_resolve_year_count`: `int(config.get("year_count", 1))`, conversion
failure being a `ProviderConfigurationError`; range violations (outside
`[2,5]` for `multi-year`, different from `1` otherwise) are
`ProviderRequestError`s. -/
def resolve_year_count (config : JValue) (report_type : String) :
    Except SatError ℤ :=
  let raw := jGetD config "year_count" (.int 1)
  match pyInt raw with
  | none => .error (.configError "SatSource year_count must be an integer")
  | some year_count =>
      if report_type = "multi-year" then
        if year_count < 2 ∨ year_count > 5 then
          .error (.requestError
            "SatSource multi-year reports require a yearCount between 2 and 5 years")
        else .ok year_count
      else
        if year_count ≠ 1 then
          .error (.requestError
            "yearCount must be 1 for seasonal or annual SatSource reports")
        else .ok year_count

/-! ## Error aggregation (`_format_error`, `_collect_errors`,
`_raise_for_sync_error`) -/

/-- `_format_error`: an object-shaped error renders as one line joining, in
order, its truthy code, message/detail/reason, `case N` and `field X`
fragments with `" | "`; an empty-part object falls back to `str(error)`, a
string passes through, `None` vanishes, anything else is stringified. -/
def format_error (error : JValue) : List String :=
  match error with
  | .obj _ =>
      let code := pyOr (jGet error "code") (jGet error "errorCode")
      let detail := pyOr (jGet error "message")
        (pyOr (jGet error "detail") (jGet error "reason"))
      let case_id := pyOr (jGet error "case") (jGet error "caseId")
      let field := pyOr (jGet error "field") (jGet error "path")
      let parts :=
        (if truthy code then [pyStr code] else []) ++
        (if truthy detail then [pyStr detail] else []) ++
        (if truthy case_id then ["case " ++ pyStr case_id] else []) ++
        (if truthy field then ["field " ++ pyStr field] else [])
      if parts ≠ [] then [joinWith " | " parts] else [pyStr error]
  | .str s => [s]
  | .null => []
  | e => [pyStr e]

/-- `_collect_errors`: gather error lines from an `error` field, an `errors`
field (list, string — iterated character-wise as Python does for a `str`
`Sequence` — or single object), top-level `errorCode`/`message`, or a
payload that is itself a list or string; finally drop empty lines. -/
def collect_errors (payload : JValue) : List String :=
  let messages :=
    match payload with
    | .obj _ =>
        (if truthy (jGet payload "error") then format_error (jGet payload "error")
         else []) ++
        (if truthy (jGet payload "errors") then
           match jGet payload "errors" with
           | .arr errs => errs.flatMap format_error
           | .str s => s.data.flatMap
               (fun c => format_error (.str (String.mk [c])))
           | e => format_error e
         else []) ++
        (if truthy (jGet payload "errorCode") || truthy (jGet payload "message")
         then format_error payload else [])
    | .arr items => items.flatMap format_error
    | .str s => [s]
    | _ => []
  messages.filter (fun m => m ≠ "")

/-- `_raise_for_sync_error` as run by `dispatch` on a 200-status JSON body,
before any dataset content is read: any collected error aborts with a
`ProviderRequestError` joining the lines with `"; "`. -/
def handle_sync_response (payload : JValue) : Except SatError JValue :=
  match collect_errors payload with
  | [] => .ok payload
  | errs => .error (.requestError (joinWith "; " errs))

/-! ## Response normalization (`_extract_callback_payload`,
`_extract_dataset_payload`, `_coerce_date`, `_normalize_precip`,
`_parse_record`, `parse_response`) -/

/-- `_extract_callback_payload`: a mapping under `callback`/`callbackPayload`. -/
def extract_callback_payload (payload : JValue) : Option JValue :=
  let callback := pyOr (jGet payload "callback") (jGet payload "callbackPayload")
  if isObj callback then some callback else none

/-- `_extract_dataset_payload`: strict priority order — truthy
`dataset`/`data` (wrapped as a one-field records object when not a mapping), then a
`farmDetails` list with top-level metadata/source, then a mapping under a
callback field under `dataset`/`body`/`payload`. -/
def extract_dataset_payload (payload : JValue) : Option JValue :=
  if !isObj payload then none
  else
    let dataset := pyOr (jGet payload "dataset") (jGet payload "data")
    if truthy dataset then
      some (if isObj dataset then dataset else .obj [("records", dataset)])
    else if isArr (jGet payload "farmDetails") then
      some (.obj [("records", jGet payload "farmDetails"),
                  ("metadata", jGet payload "metadata"),
                  ("source", jGet payload "source")])
    else
      match extract_callback_payload payload with
      | some callback =>
          let inner := pyOr (jGet callback "dataset")
            (pyOr (jGet callback "body") (jGet callback "payload"))
          if isObj inner then some inner else none
      | none => none

/-- `_coerce_date`: stringify, keep the part before the first `T`, parse as
an ISO date; failure is a `ProviderRequestError`.  (The `isinstance(value,
date)` shortcut has no analogue: JSON payloads only carry strings here.) -/
def coerce_date (value : JValue) : Except SatError IsoDate :=
  let text := pyStr value
  let text := ((sSplitOn 'T' text).headD text)
  match parseIsoDate text with
  | some d => .ok d
  | none => .error (.requestError
      ("Invalid date value in SatSource payload: " ++ pyStr value))

/-- `_normalize_precip`: `None` stays absent; a value `float()` rejects
becomes absent; a numeric value in `[0,1]` is scaled by 100; any other
numeric value passes through. -/
def normalize_precip (value : JValue) : Option ℚ :=
  match value with
  | .null => none
  | v =>
      match pyFloat v with
      | none => none
      | some numeric =>
          if 0 ≤ numeric ∧ numeric ≤ 1 then some (numeric * 100) else some numeric

/-- `_parse_record`: resolve the date from `date`/`day` or the nested
metadata fields, then the three metrics through their `or`-chains of
candidate keys (including the `satScore` fallbacks), normalizing
precipitation.  A missing date is a `ProviderRequestError`. -/
def parse_record (record : JValue) : Except SatError WeatherDataPoint :=
  let day := pyOr (jGet record "date") (jGet record "day")
  let metadata := jGet record "metadata"
  let day :=
    if !truthy day && isObj metadata then
      pyOr (jGet metadata "reportDate")
        (pyOr (jGet metadata "collectedAt") (jGet metadata "deliveredAt"))
    else day
  if !truthy day then
    .error (.requestError "SatSource record missing date field")
  else
    match coerce_date day with
    | .error e => .error e
    | .ok current_date =>
        let sat_score := if isObj (jGet record "satScore") then jGet record "satScore" else .null
        let precip := pyOr (jGet record "precipitation_probability")
          (jGet record "precipProbability")
        let temp_max := pyOr (jGet record "temperature_max")
          (pyOr (jGet record "temperatureMax") (jGet record "maxTemp"))
        let temp_min := pyOr (jGet record "temperature_min")
          (pyOr (jGet record "temperatureMin") (jGet record "minTemp"))
        let (temp_max, temp_min, precip) :=
          if truthy sat_score then
            let temperature := jGet sat_score "temperature"
            let temp_max' :=
              if isObj temperature then
                pyOr temp_max (pyOr (jGet temperature "max") (jGet temperature "high"))
              else
                pyOr temp_max (pyOr (jGet sat_score "temperatureMax")
                  (jGet sat_score "maxTemp"))
            let temp_min' :=
              if isObj temperature then
                pyOr temp_min (pyOr (jGet temperature "min") (jGet temperature "low"))
              else
                pyOr temp_min (pyOr (jGet sat_score "temperatureMin")
                  (jGet sat_score "minTemp"))
            let precip' := pyOr precip
              (pyOr (jGet sat_score "precipitationProbability")
                (jGet sat_score "precipProbability"))
            (temp_max', temp_min', precip')
          else (temp_max, temp_min, precip)
        .ok { date := current_date
              temperature_max := pyFloat temp_max
              temperature_min := pyFloat temp_min
              precipitation_probability := normalize_precip precip }

/-- `parse_response`: locate the dataset content (a falsy extraction result
also fails), derive the source label through its `or`-chain, and map each
record to a data point.  Iterating a non-list `records` value crashes
Python with an uncaught exception, modelled as `SatError.uncaught`. -/
def parse_response (provider_id : String) (payload : JValue) :
    Except SatError ProviderDataset :=
  match extract_dataset_payload payload with
  | none => .error (.requestError "SatSource response did not include dataset content")
  | some dataset_payload =>
      if !truthy dataset_payload then
        .error (.requestError "SatSource response did not include dataset content")
      else
        let metadata := pyOr (jGet dataset_payload "metadata") (jGet payload "metadata")
        let source := pyOr (jGet dataset_payload "source")
          (pyOr (if isObj metadata then jGet metadata "sourceId" else .null)
            (pyOr (jGet payload "source") (.str "sat-source")))
        let records := pyOr (jGet dataset_payload "records")
          (pyOr (jGet dataset_payload "data") (.arr []))
        match records with
        | .arr rs =>
            match rs.mapM parse_record with
            | .error e => .error e
            | .ok data_points =>
                .ok { provider_id := provider_id, source := source, data := data_points }
        | _ => .error (.uncaught "SatSource records value is not iterable as records")

/-! ## Callback URL templating (`_render_callback_url`) and the
Callback Correlation Registry -/

/-- Scanner state of the `str.format` model. -/
inductive FmtState where
  | norm
  | field (acc : String)
  | sawOpen
  | sawClose

def braceOpen : Char := Char.ofNat 123
def braceClose : Char := Char.ofNat 125

/-- Core of Python `str.format(**replacements)` restricted to how
`_render_callback_url` calls it: doubled braces escape, a simple
`\x7bname\x7d` placeholder substitutes, and everything CPython rejects
(unbalanced braces, unknown names, empty or nested fields) is `none`.
Fields carrying format specs or conversions (`\x7bname:spec\x7d`,
`\x7bname!r\x7d`) are conservatively modelled as failures; the adapter
falls back to the raw template either way and no registry template uses
them. -/
def pyFormatGo (lookup : String → Option String) :
    List Char → FmtState → String → Option String
  | [], .norm, acc => some acc
  | [], .field _, _ => none
  | [], .sawOpen, _ => none
  | [], .sawClose, _ => none
  | c :: rest, .norm, acc =>
      if c = braceOpen then pyFormatGo lookup rest .sawOpen acc
      else if c = braceClose then pyFormatGo lookup rest .sawClose acc
      else pyFormatGo lookup rest .norm (acc.push c)
  | c :: rest, .sawOpen, acc =>
      if c = braceOpen then pyFormatGo lookup rest .norm (acc.push braceOpen)
      else if c = braceClose then
        match lookup "" with
        | some v => pyFormatGo lookup rest .norm (acc ++ v)
        | none => none
      else pyFormatGo lookup rest (.field (String.mk [c])) acc
  | c :: rest, .sawClose, acc =>
      if c = braceClose then pyFormatGo lookup rest .norm (acc.push braceClose)
      else none
  | c :: rest, .field f, acc =>
      if c = braceClose then
        match lookup f with
        | some v => pyFormatGo lookup rest .norm (acc ++ v)
        | none => none
      else if c = braceOpen then none
      else pyFormatGo lookup rest (.field (f.push c)) acc

def pyFormat (template : String) (lookup : String → Option String) :
    Option String :=
  pyFormatGo lookup template.data .norm ""

/-- The keyword replacements `_render_callback_url` passes to `format`. -/
def renderLookup (reference_id : String) (context : Option RequestContext)
    (provider_id : String) : String → Option String := fun k =>
  if k = "referenceId" then some reference_id
  else if k = "requestId" then
    some (match context with | some c => c.request_id | none => "")
  else if k = "providerId" then some provider_id
  else none

/-- `_render_callback_url`: a falsy template yields no URL; otherwise
substitute, and on any substitution failure fall back to the unmodified
template string. -/
def render_callback_url (template : JValue) (reference_id : String)
    (context : Option RequestContext) (provider_id : String) : Option String :=
  if !truthy template then none
  else
    let template_str := pyStr template
    some ((pyFormat template_str
      (renderLookup reference_id context provider_id)).getD template_str)

/-- A correlation entry of the Callback Correlation Registry
(`CallbackRegistry` in `sat_source.py`). -/
structure CorrRecord where
  request_id : String
  provider_id : String
  reference_id : String
deriving DecidableEq

/-- The registry state: a mapping from callback URL to correlation entry. -/
abbrev CallbackRegistry := List (String × CorrRecord)

/-- `CallbackRegistry.record`: ignore falsy URLs, otherwise overwrite the
entry for the URL (last write wins). -/
def registryRecord (reg : CallbackRegistry) (callback_url : String)
    (rec : CorrRecord) : CallbackRegistry :=
  if callback_url = "" then reg
  else (callback_url, rec) :: reg.filter (fun p => p.1 ≠ callback_url)

/-- `CallbackRegistry.get`. -/
def registryGet (reg : CallbackRegistry) (callback_url : String) :
    Option CorrRecord :=
  reg.lookup callback_url

/-! ## Payload assembly (`SatSourceProvider.build_payload`) -/

/-- The provider payload: an ordered JSON object. -/
abbrev Payload := List (String × JValue)

/-- `build_payload`: region resolution, region-count bounds, reference-id
presence, report-type and year-count validation, payload assembly, and —
for a truthy rendered callback URL — payload extension plus registration in
the correlation registry before dispatch.  Returns the payload together
with the updated registry state. -/
def build_payload (provider_id : String) (config : JValue) (spec : ReportSpec)
    (context : Option RequestContext) (reg : CallbackRegistry) :
    Except SatError (Payload × CallbackRegistry) :=
  match resolve_region_ids config spec with
  | .error e => .error e
  | .ok region_ids =>
      match pyInt (jGetD config "max_region_ids" (.int 5)) with
      | none => .error (.uncaught "int() failed on the max_region_ids registry value")
      | some max_regions =>
          if region_ids = [] then
            .error (.requestError "At least one regionId is required for SatSource requests")
          else if (region_ids.length : ℤ) > max_regions then
            .error (.requestError
              ("SatSource supports at most " ++ toString max_regions ++ " region IDs"))
          else
            let reference_id := spec.reference_id
            if reference_id = "" then
              .error (.requestError "SatSource requests require a referenceId")
            else
              match resolve_report_type config with
              | .error e => .error e
              | .ok report_type =>
                  match resolve_year_count config report_type with
                  | .error e => .error e
                  | .ok year_count =>
                      let payload : Payload :=
                        [("referenceId", .str reference_id),
                         ("regionIds", .arr (region_ids.map .str)),
                         ("metrics", .arr (spec.metrics.map .str)),
                         ("timeframe", .obj
                           [("start", .str spec.timeframe.start.isoformat),
                            ("end", .str spec.timeframe.end_.isoformat)]),
                         ("units", .str spec.units),
                         ("reportType", .str report_type),
                         ("yearCount", .int year_count)]
                      let callback_template := jGet config "callback_url"
                      match render_callback_url callback_template reference_id
                          context provider_id with
                      | some callback_url =>
                          if callback_url ≠ "" then
                            let payload := payload ++ [("callbackUrl", .str callback_url)]
                            let reg' := registryRecord reg callback_url
                              { request_id :=
                                  match context with
                                  | some c => c.request_id
                                  | none => reference_id
                                provider_id := provider_id
                                reference_id := reference_id }
                            .ok (payload, reg')
                          else .ok (payload, reg)
                      | none => .ok (payload, reg)

/-- The `fetch` pipeline of `BaseProviderClient` specialized to this
adapter: build (which updates the correlation registry), dispatch through
an oracle standing for the HTTP layer (it receives the registry state in
force while the request is in flight), the synchronous-error check that
`dispatch` performs on the decoded body, then `parse_response`.  The final
registry state is returned alongside the outcome. -/
def fetchSat (oracle : Payload → CallbackRegistry → Except SatError JValue)
    (provider_id : String) (config : JValue) (spec : ReportSpec)
    (context : Option RequestContext) (reg : CallbackRegistry) :
    Except SatError ProviderDataset × CallbackRegistry :=
  match build_payload provider_id config spec context reg with
  | .error e => (.error e, reg)
  | .ok (payload, reg') =>
      match oracle payload reg' with
      | .error e => (.error e, reg')
      | .ok body =>
          match handle_sync_response body with
          | .error e => (.error e, reg')
          | .ok checked => (parse_response provider_id checked, reg')

/-! ## Resilient transport (`LLMClient.chat`, `app/services/llm_client.py`)

One loop iteration per attempt: a successful POST decodes JSON (which can
fail), checks the minimal shape (`data.get("choices")` truthy), and
returns; `httpx.HTTPError` (connection failures, timeouts and HTTP status
errors) and `ValueError` are caught, a status error with a non-transient
code breaks immediately, the final attempt breaks, and otherwise the loop
sleeps `backoff` time units (starting at 1, doubling) and retries.
Falling out of the loop raises `RuntimeError` wrapping the last error. -/

/-- What one HTTP attempt can produce, as seen by the `try` body of
`LLMClient.chat`. -/
inductive Outcome where
  | success (data : JValue)
  | httpStatus (code : ℕ)
  | connError
  | timeout
  | invalidJson

/-- The last-error classification carried into the wrapped failure. -/
inductive FailureKind where
  | status (code : ℕ)
  | conn
  | timedOut
  | badJson
  | missingChoices
deriving DecidableEq

/-- The explicit transient status set of `llm_client.py` line 88. -/
def transientStatuses : List ℕ := [408, 429, 500, 502, 503]

/-- Evaluate one attempt: a success whose body carries a truthy `choices`
field returns the data; everything else is a caught failure. -/
def outcomeResult : Outcome → JValue ⊕ FailureKind
  | .success data =>
      if truthy (jGet data "choices") then .inl data else .inr .missingChoices
  | .httpStatus c => .inr (.status c)
  | .connError => .inr .conn
  | .timeout => .inr .timedOut
  | .invalidJson => .inr .badJson

/-- The `break` condition: an `HTTPStatusError` whose code is not in the
transient set. -/
def nonRetryable : FailureKind → Bool
  | .status c => !(transientStatuses.contains c)
  | _ => false

/-- A caught failure that the loop will sleep on and retry. -/
def retryAttempt (o : Outcome) : Bool :=
  match outcomeResult o with
  | .inl _ => false
  | .inr fk => !nonRetryable fk

/-- Result of `chat`: the decoded data, or the `RuntimeError` wrapping the
last underlying error. -/
inductive ChatResult where
  | ok (data : JValue)
  | failed (last : Option FailureKind)

/-- The retry loop of `LLMClient.chat`.  `fuel` counts the iterations left
in `range(max_retries)`; the accumulated `waits` lists each backoff slept,
so the returned trace exposes the retry/backoff behaviour. -/
def chatAux (outcomes : ℕ → Outcome) (max_retries : ℕ) :
    ℕ → ℕ → Option FailureKind → ℚ → List ℚ → ChatResult × List ℚ
  | 0, _, last, _, waits => (.failed last, waits)
  | fuel + 1, attempt, _, backoff, waits =>
      match outcomeResult (outcomes attempt) with
      | .inl data => (.ok data, waits)
      | .inr fk =>
          if nonRetryable fk then (.failed (some fk), waits)
          else if attempt = max_retries - 1 then (.failed (some fk), waits)
          else chatAux outcomes max_retries fuel (attempt + 1) (some fk)
            (backoff * 2) (waits ++ [backoff])

/-- `LLMClient.chat` with the per-attempt HTTP outcomes supplied as an
oracle. -/
def chat (outcomes : ℕ → Outcome) (max_retries : ℕ) : ChatResult × List ℚ :=
  chatAux outcomes max_retries max_retries 0 none 1 []

/-- The `Settings.llm_max_retries` bound of `app/config.py`
(`Field(default=3, ge=1, le=6)`). -/
def validMaxRetries (n : ℕ) : Prop := 1 ≤ n ∧ n ≤ 6

/-! ## Support definitions for the claim theorems -/

/-- Region derivation written from the spec text (amended form): if the
name is prefixed with a `region:` marker, strip the marker and split on
whichever of `|`, `;`, `,` occurs (in that order of preference); otherwise
split on `|` or `;` if present; otherwise the whole (marker-stripped) name
is the single region — even when it is empty.  Split parts are trimmed and
empty parts dropped; an empty overall name yields no regions. -/
def specDeriveRegions (raw : String) : List String :=
  let name := sTrim raw
  if name = "" then []
  else if sStartsWith (sToLower name) "region:" then
    let rest := afterFirstColon name
    if strContainsChar rest '|' then splitTrimNonempty rest '|'
    else if strContainsChar rest ';' then splitTrimNonempty rest ';'
    else if strContainsChar rest ',' then splitTrimNonempty rest ','
    else [rest]
  else
    if strContainsChar name '|' then splitTrimNonempty name '|'
    else if strContainsChar name ';' then splitTrimNonempty name ';'
    else [name]

/-- The dispatch-then-parse tail of the pipeline: the synchronous-error
check `dispatch` runs on a decoded 200-status body, followed by
`parse_response` — the aggregation runs before any dataset content is
read. -/
def processSync (provider_id : String) (body : JValue) :
    Except SatError ProviderDataset :=
  match handle_sync_response body with
  | .error e => .error e
  | .ok checked => parse_response provider_id checked

/-- The payload assembled by `build_payload` before the optional callback
field. -/
def basePayload (spec : ReportSpec) (region_ids : List String)
    (report_type : String) (year_count : ℤ) : Payload :=
  [("referenceId", .str spec.reference_id),
   ("regionIds", .arr (region_ids.map .str)),
   ("metrics", .arr (spec.metrics.map .str)),
   ("timeframe", .obj
     [("start", .str spec.timeframe.start.isoformat),
      ("end", .str spec.timeframe.end_.isoformat)]),
   ("units", .str spec.units),
   ("reportType", .str report_type),
   ("yearCount", .int year_count)]

/-- The successful result of `build_payload` (payload and registry state),
as a function of the already-validated inputs. -/
def buildSuccess (provider_id : String) (config : JValue) (spec : ReportSpec)
    (context : Option RequestContext) (reg : CallbackRegistry)
    (region_ids : List String) (report_type : String) (year_count : ℤ) :
    Payload × CallbackRegistry :=
  let payload := basePayload spec region_ids report_type year_count
  match render_callback_url (jGet config "callback_url") spec.reference_id
      context provider_id with
  | some callback_url =>
      if callback_url ≠ "" then
        (payload ++ [("callbackUrl", .str callback_url)],
         registryRecord reg callback_url
           { request_id :=
               match context with
               | some c => c.request_id
               | none => spec.reference_id
             provider_id := provider_id
             reference_id := spec.reference_id })
      else (payload, reg)
  | none => (payload, reg)

/-- Projection used to state facts about the payload built for a spec:
`some (lookup result)` on success, `none` on failure. -/
def builtCallbackValue (r : Except SatError (Payload × CallbackRegistry)) :
    Option (Option JValue) :=
  match r with
  | .ok (p, _) => some (p.lookup "callbackUrl")
  | .error _ => none

/-- A response body with a truthy `choices` field (passes the minimal shape
check). -/
def okBody : JValue :=
  .obj [("choices", .arr [.obj [("message",
    .obj [("content", .str "hi")])]])]

/-- Attempt oracle: two 503 failures, then success. -/
def twoFailuresThenOk : ℕ → Outcome :=
  fun i => if i < 2 then .httpStatus 503 else .success okBody

/-- Attempt oracle: a JSON-decode failure, then success. -/
def badJsonThenOk : ℕ → Outcome :=
  fun i => if i = 0 then .invalidJson else .success okBody

/-- Concrete report spec used by the callback round-trip scenario. -/
def specRoundTrip : ReportSpec :=
  { location := ⟨"region:r1|r2"⟩
    timeframe := ⟨⟨2024, 5, 1⟩, ⟨2024, 5, 3⟩⟩
    metrics := ["temperature_max"]
    units := "metric"
    reference_id := "req-123" }

/-- Registry config carrying the round-trip callback template
`https://x/\x7breferenceId\x7d`. -/
def cfgRoundTrip : JValue :=
  .obj [("callback_url", .str "https://x/\x7breferenceId\x7d")]

/-- Concrete minimal valid spec (single region, reference id present). -/
def specMinimal : ReportSpec :=
  { location := ⟨"r1"⟩
    timeframe := ⟨⟨2024, 5, 1⟩, ⟨2024, 5, 3⟩⟩
    metrics := []
    units := "metric"
    reference_id := "req-1" }

/-- The error payload of the aggregation example, extended with dataset
content that must never be read. -/
def errorExamplePayload : JValue :=
  .obj [("errors", .arr [.obj [("code", .str "R001"),
          ("message", .str "invalid region"), ("caseId", .int 7)]]),
        ("dataset", .obj [("records", .arr [.obj [("date", .str "2024-05-01")]])])]

/-- The correlation entry registered by the round-trip scenario. -/
def roundTripRecord (pid : String) (ctx : Option RequestContext) : CorrRecord :=
  { request_id :=
      match ctx with
      | some c => c.request_id
      | none => "req-123"
    provider_id := pid
    reference_id := "req-123" }

/-- The registry state after the round-trip `build_payload`. -/
def roundTripReg (pid : String) (ctx : Option RequestContext)
    (reg : CallbackRegistry) : CallbackRegistry :=
  ("https://x/req-123", roundTripRecord pid ctx)
    :: reg.filter (fun p => p.1 ≠ "https://x/req-123")

/-- The payload assembled by the round-trip `build_payload`. -/
def roundTripPayload : Payload :=
  basePayload specRoundTrip ["r1", "r2"] "seasonal" 1
    ++ [("callbackUrl", .str "https://x/req-123")]

/-! ## Theorems -/

/-- The two region-derivation presentations agree: the implementation
(first delimiter found in an ordered list) equals the spec-worded
if-chain. -/
theorem regions_eq_specDerive (name : String) :
    regionsFromName name = specDeriveRegions name := by
  unfold regionsFromName specDeriveRegions
  by_cases h0 : sTrim name = ""
  · simp [h0]
  · by_cases h1 : sStartsWith (sToLower (sTrim name)) "region:" = true
    · by_cases h2 : strContainsChar (afterFirstColon (sTrim name)) '|' = true
      · simp [h0, h1, h2, List.find?]
      · by_cases h3 : strContainsChar (afterFirstColon (sTrim name)) ';' = true
        · simp [h0, h1, h2, h3, List.find?]
        · by_cases h4 : strContainsChar (afterFirstColon (sTrim name)) ',' = true
          · simp [h0, h1, h2, h3, h4, List.find?]
          · simp [h0, h1, h2, h3, h4, List.find?]
    · by_cases h2 : strContainsChar (sTrim name) '|' = true
      · simp [h0, h1, h2, List.find?]
      · by_cases h3 : strContainsChar (sTrim name) ';' = true
        · simp [h0, h1, h2, h3, List.find?]
        · simp [h0, h1, h2, h3, List.find?]

/-- C1 counterexample: the location name `"region:"` has the marker
stripped, leaving the empty derived name, yet one region — the empty
string — is returned instead of none, contradicting the claim that empty
derived names yield no regions. -/
theorem C1_counterexample :
    resolve_region_ids (.obj [])
      { location := ⟨"region:"⟩
        timeframe := ⟨⟨2024, 5, 1⟩, ⟨2024, 5, 2⟩⟩
        metrics := []
        units := "metric"
        reference_id := "req-1" } = .ok [""]
    ∧ ("" ∈ [""] ∧ ([""] : List String) ≠ []) :=
  ⟨rfl, by decide, by decide⟩

/-- C1 (amended): with no `region_ids` override, `build_payload`s region
resolution derives regions from the location name exactly as the spec
algorithm describes — `region:`-marked names are stripped and split on the
first of `|`, `;`, `,` present, unmarked names on `|` or `;`, otherwise
the whole name is the single region — amended only in that a
marker-stripped remainder without delimiters is returned as the single
region even when it is empty or blank (so `"region:"` yields `[""]`).
In particular `"region:r1|r2"` gives `["r1","r2"]`, `"New York"` gives
`["New York"]`, and `"r1;r2"` gives `["r1","r2"]`. -/
theorem C1_region_resolution :
    (∀ (config : JValue) (spec : ReportSpec),
      truthy (jGet config "region_ids") = false →
      resolve_region_ids config spec = .ok (regionsFromName spec.location.name))
    ∧ (∀ name, regionsFromName name = specDeriveRegions name)
    ∧ regionsFromName "region:r1|r2" = ["r1", "r2"]
    ∧ regionsFromName "New York" = ["New York"]
    ∧ regionsFromName "r1;r2" = ["r1", "r2"] := by
  refine ⟨?_, regions_eq_specDerive, by decide, by decide, by decide⟩
  intro config spec h
  simp [resolve_region_ids, h]

/-- C1 witness: the hypothesis of the override-free clause is satisfiable
(the empty registry config has a falsy `region_ids`). -/
theorem C1_region_resolution_witness :
    resolve_region_ids (.obj []) specMinimal
      = .ok (regionsFromName "r1") :=
  C1_region_resolution.1 (.obj []) specMinimal rfl

/-- C2 counterexample: a year count that cannot be converted to an integer
is a year-count violation (it is not a positive integer), yet the adapter
raises `ProviderConfigurationError`, not the `ProviderRequestError` the
claim requires for every year-count violation. -/
theorem C2_counterexample :
    resolve_year_count (.obj [("year_count", .str "abc")]) "seasonal"
      = .error (.configError "SatSource year_count must be an integer") := by
  rfl

/-- C2 (amended): a configured report type outside the set of seasonal, annual and
multi-year raises a configuration error, never a per-request error; the
year count must convert to an integer via `int()` — a conversion failure
is a configuration error, not a request error — and the converted count
must lie in [2,5] for `multi-year` and equal exactly 1 for `seasonal` or
`annual`, every such range violation being a request-validation failure
(`ProviderRequestError`).  Concretely: multi-year with yearCount 1 is a
request error while 3 succeeds; seasonal with yearCount 2 is a request
error while 1 succeeds. -/
theorem C2_report_type_year_count :
    (∀ config : JValue,
      sToLower (sTrim (pyStr (jGetD config "report_type" (.str "seasonal"))))
        ∉ ALLOWED_REPORT_TYPES →
      resolve_report_type config = .error (.configError (reportTypeErrMsg
        (sToLower (sTrim (pyStr (jGetD config "report_type" (.str "seasonal"))))))))
    ∧ (∀ (config : JValue) (yc : ℤ),
        pyInt (jGetD config "year_count" (.int 1)) = some yc →
        ((resolve_year_count config "multi-year").isOk = true ↔ 2 ≤ yc ∧ yc ≤ 5)
        ∧ ((resolve_year_count config "seasonal").isOk = true ↔ yc = 1)
        ∧ ((resolve_year_count config "annual").isOk = true ↔ yc = 1)
        ∧ (¬(2 ≤ yc ∧ yc ≤ 5) → resolve_year_count config "multi-year"
            = .error (.requestError
              "SatSource multi-year reports require a yearCount between 2 and 5 years"))
        ∧ (yc ≠ 1 → resolve_year_count config "seasonal"
            = .error (.requestError
              "yearCount must be 1 for seasonal or annual SatSource reports")))
    ∧ (∀ config : JValue,
        pyInt (jGetD config "year_count" (.int 1)) = none →
        resolve_year_count config "seasonal"
            = .error (.configError "SatSource year_count must be an integer")
        ∧ resolve_year_count config "multi-year"
            = .error (.configError "SatSource year_count must be an integer"))
    ∧ resolve_year_count (.obj [("year_count", .int 1)]) "multi-year"
        = .error (.requestError
          "SatSource multi-year reports require a yearCount between 2 and 5 years")
    ∧ resolve_year_count (.obj [("year_count", .int 3)]) "multi-year" = .ok 3
    ∧ resolve_year_count (.obj [("year_count", .int 2)]) "seasonal"
        = .error (.requestError
          "yearCount must be 1 for seasonal or annual SatSource reports")
    ∧ resolve_year_count (.obj []) "seasonal" = .ok 1 := by
  refine ⟨?_, ?_, ?_, by rfl, by rfl, by rfl, by rfl⟩
  · intro config h
    simp [resolve_report_type, h]
  · intro config yc h
    refine ⟨?_, ?_, ?_, ?_, ?_⟩ <;>
      · simp only [resolve_year_count, h]
        split_ifs <;> simp_all [Except.isOk, Except.toBool] <;> omega
  · intro config h
    constructor <;> simp [resolve_year_count, h]

/-- C2 witness: the range clauses are satisfiable at a concrete registry
config (`year_count = 3`, multi-year succeeds). -/
theorem C2_report_type_year_count_witness :
    (resolve_year_count (.obj [("year_count", .int 3)]) "multi-year").isOk = true :=
  ((C2_report_type_year_count.2.1 (.obj [("year_count", .int 3)]) 3 rfl).1).mpr
    (by decide)

/-- C7: precipitation normalization maps a numeric value in [0,1] to that
value times 100, passes every other numeric value through unchanged, and
maps `None` and non-numeric values to absent; 0.5 becomes 50, 50 stays 50,
absent stays absent. -/
theorem C7_precip_normalization :
    (∀ q : ℚ, 0 ≤ q → q ≤ 1 → normalize_precip (.float q) = some (q * 100))
    ∧ (∀ q : ℚ, ¬(0 ≤ q ∧ q ≤ 1) → normalize_precip (.float q) = some q)
    ∧ (∀ n : ℤ, 0 ≤ n → n ≤ 1 → normalize_precip (.int n) = some ((n : ℚ) * 100))
    ∧ (∀ n : ℤ, ¬(0 ≤ n ∧ n ≤ 1) → normalize_precip (.int n) = some ((n : ℚ)))
    ∧ normalize_precip .null = none
    ∧ (∀ v : JValue, pyFloat v = none → normalize_precip v = none)
    ∧ normalize_precip (.float (mkRat 1 2)) = some 50
    ∧ normalize_precip (.int 50) = some 50 := by
  refine ⟨?_, ?_, ?_, ?_, rfl, ?_, ?_, ?_⟩
  · intro q h0 h1
    simp [normalize_precip, pyFloat, h0, h1]
  · intro q h
    simp [normalize_precip, pyFloat, h]
  · intro n h0 h1
    have h0' : (0 : ℚ) ≤ (n : ℚ) := by exact_mod_cast h0
    have h1' : ((n : ℚ)) ≤ 1 := by exact_mod_cast h1
    simp [normalize_precip, pyFloat, h0', h1']
  · intro n h
    have h' : ¬(0 ≤ (n : ℚ) ∧ (n : ℚ) ≤ 1) := by
      rintro ⟨a, b⟩
      exact h ⟨by exact_mod_cast a, by exact_mod_cast b⟩
    simp only [normalize_precip, pyFloat]
    rw [if_neg h']
  · intro v hv
    cases v <;> simp_all [normalize_precip, pyFloat]
  · have h : normalize_precip (.float (mkRat 1 2)) = some (mkRat 1 2 * 100) := rfl
    rw [h]
    norm_num [Rat.mkRat_eq_div]
  · have h : normalize_precip (.int 50) = some (((50 : ℤ) : ℚ)) := rfl
    rw [h]
    norm_num

/-- C7 witness: the scaling clause is satisfiable at the in-range value 0. -/
theorem C7_precip_normalization_witness :
    normalize_precip (.float 0) = some ((0 : ℚ) * 100) :=
  C7_precip_normalization.1 0 le_rfl (by norm_num)

/-- C3: each object-shaped error renders as one line with, in order, its
truthy code, message/detail/reason, `case N` and `field X` fragments;
multiple lines join with `"; "`; the documented example produces a message
containing `R001`, `invalid region` and `case 7`; and the aggregation also
runs on a 200-status body before any dataset content is read, raising
`ProviderRequestError`. -/
theorem C3_error_aggregation :
    (∀ c d cs f : String,
      truthy (.str c) = true → truthy (.str d) = true →
      truthy (.str cs) = true → truthy (.str f) = true →
      format_error (.obj [("code", .str c), ("message", .str d),
        ("caseId", .str cs), ("field", .str f)])
        = [c ++ " | " ++ d ++ " | " ++ ("case " ++ cs) ++ " | " ++ ("field " ++ f)])
    ∧ format_error (.obj [("errorCode", .str "E7"), ("reason", .str "bad input"),
        ("case", .int 3), ("path", .str "regionIds")])
        = ["E7 | bad input | case 3 | field regionIds"]
    ∧ collect_errors (.obj [("errors", .arr
        [.obj [("code", .str "A"), ("message", .str "first")],
         .obj [("code", .str "B"), ("message", .str "second")]])])
        = ["A | first", "B | second"]
    ∧ handle_sync_response (.obj [("errors", .arr
        [.obj [("code", .str "A"), ("message", .str "first")],
         .obj [("code", .str "B"), ("message", .str "second")]])])
        = .error (.requestError "A | first; B | second")
    ∧ (∀ body : JValue, collect_errors body ≠ [] →
        handle_sync_response body
          = .error (.requestError (joinWith "; " (collect_errors body)))
        ∧ ∀ pid, processSync pid body
          = .error (.requestError (joinWith "; " (collect_errors body))))
    ∧ handle_sync_response errorExamplePayload
        = .error (.requestError "R001 | invalid region | case 7")
    ∧ processSync "sat-source" errorExamplePayload
        = .error (.requestError "R001 | invalid region | case 7")
    ∧ (extract_dataset_payload errorExamplePayload).isSome = true
    ∧ (strContains "R001 | invalid region | case 7" "R001"
        && strContains "R001 | invalid region | case 7" "invalid region"
        && strContains "R001 | invalid region | case 7" "case 7") = true := by
  refine ⟨?_, by rfl, by rfl, by rfl, ?_, by rfl, by rfl, by rfl, by decide⟩
  · intro c d cs f h1 h2 h3 h4
    have hc : ¬(c = "") := by simpa [truthy] using h1
    have hd : ¬(d = "") := by simpa [truthy] using h2
    have hcs : ¬(cs = "") := by simpa [truthy] using h3
    have hf : ¬(f = "") := by simpa [truthy] using h4
    simp [format_error, jGet, jFind, List.lookup, pyOr, pyStr, truthy,
      joinWith, hc, hd, hcs, hf, String.append_assoc]
  · intro body h
    have hmain : handle_sync_response body
        = .error (.requestError (joinWith "; " (collect_errors body))) := by
      unfold handle_sync_response
      cases hc : collect_errors body with
      | nil => exact absurd hc h
      | cons a t => simp [hc]
    exact ⟨hmain, fun pid => by simp [processSync, hmain]⟩

/-- C3 witness: the clauses with hypotheses are satisfiable — the format
clause at concrete non-empty fields, and the 200-status aggregation clause
at a body with a bare string error. -/
theorem C3_error_aggregation_witness :
    format_error (.obj [("code", .str "R001"), ("message", .str "invalid region"),
      ("caseId", .str "7"), ("field", .str "regionIds")])
      = ["R001 | invalid region | case 7 | field regionIds"]
    ∧ handle_sync_response (.obj [("error", .str "boom")])
      = .error (.requestError (joinWith "; "
          (collect_errors (.obj [("error", .str "boom")])))) :=
  ⟨C3_error_aggregation.1 "R001" "invalid region" "7" "regionIds"
      rfl rfl rfl rfl,
   (C3_error_aggregation.2.2.2.2.1 (.obj [("error", .str "boom")])
      (by decide)).1⟩

/-- C4 counterexample: a response containing both a `dataset` field (holding
the empty mapping, which is falsy) and a `farmDetails` field is normalized
from `farmDetails`, not from `dataset`, contradicting the claim that the
`dataset` field is used for every response containing both. -/
theorem C4_counterexample :
    extract_dataset_payload (.obj [("dataset", .obj []),
        ("farmDetails", .arr [.obj [("date", .str "2024-05-01")]])])
      = some (.obj [("records", .arr [.obj [("date", .str "2024-05-01")]]),
          ("metadata", .null), ("source", .null)])
    ∧ jFind (.obj [("dataset", .obj []),
        ("farmDetails", .arr [.obj [("date", .str "2024-05-01")]])]) "dataset"
      = some (.obj []) :=
  ⟨rfl, rfl⟩

/-- C4 (amended): dataset content is located in strict priority order — a
truthy `dataset`/`data` value first (wrapped as a one-field records object when not a
mapping), then a `farmDetails` list with top-level metadata/source, then a
mapping nested under a callback field at `dataset`/`body`/`payload` — and a
response whose `dataset`/`data` value is falsy (absent, `None`, empty mapping or list or
string, `0`) falls through to `farmDetails` even though the field is present;
when all three shapes are absent `parse_response` fails with a request
error. -/
theorem C4_dataset_priority :
    (∀ (payload v : JValue), isObj payload = true →
      jFind payload "dataset" = some v → truthy v = true →
      extract_dataset_payload payload
        = some (if isObj v then v else .obj [("records", v)]))
    ∧ (∀ (payload v : JValue), isObj payload = true →
      truthy (jGet payload "dataset") = false →
      jFind payload "data" = some v → truthy v = true →
      extract_dataset_payload payload
        = some (if isObj v then v else .obj [("records", v)]))
    ∧ (∀ payload : JValue, isObj payload = true →
      truthy (pyOr (jGet payload "dataset") (jGet payload "data")) = false →
      isArr (jGet payload "farmDetails") = true →
      extract_dataset_payload payload
        = some (.obj [("records", jGet payload "farmDetails"),
            ("metadata", jGet payload "metadata"),
            ("source", jGet payload "source")]))
    ∧ (∀ (payload callback : JValue), isObj payload = true →
      truthy (pyOr (jGet payload "dataset") (jGet payload "data")) = false →
      isArr (jGet payload "farmDetails") = false →
      extract_callback_payload payload = some callback →
      isObj (pyOr (jGet callback "dataset")
        (pyOr (jGet callback "body") (jGet callback "payload"))) = true →
      extract_dataset_payload payload
        = some (pyOr (jGet callback "dataset")
            (pyOr (jGet callback "body") (jGet callback "payload"))))
    ∧ (∀ payload : JValue, extract_dataset_payload payload = none →
      ∀ pid, parse_response pid payload
        = .error (.requestError "SatSource response did not include dataset content"))
    ∧ extract_dataset_payload (.obj [("dataset", .obj [("records", .arr [])]),
        ("farmDetails", .arr [.obj []])])
        = some (.obj [("records", .arr [])]) := by
  refine ⟨?_, ?_, ?_, ?_, ?_, by rfl⟩
  · intro payload v hobj hfind htr
    simp [extract_dataset_payload, hobj, jGet, hfind, pyOr, htr]
  · intro payload v hobj hds hfind htr
    simp only [jGet] at hds
    simp [extract_dataset_payload, hobj, jGet, hfind, pyOr, hds, htr]
  · intro payload hobj hfalsy hfarm
    simp [extract_dataset_payload, hobj, hfalsy, hfarm]
  · intro payload callback hobj hfalsy hfarm hcb hinner
    simp [extract_dataset_payload, hobj, hfalsy, hfarm, hcb, hinner]
  · intro payload h pid
    simp [parse_response, h]

/-- C4 witness: the first-priority clause is satisfiable at a payload
carrying both a truthy `dataset` mapping and a `farmDetails` list. -/
theorem C4_dataset_priority_witness :
    extract_dataset_payload (.obj [("dataset", .obj [("a", .int 1)]),
        ("farmDetails", .arr [])])
      = some (.obj [("a", .int 1)]) :=
  C4_dataset_priority.1 (.obj [("dataset", .obj [("a", .int 1)]),
    ("farmDetails", .arr [])]) (.obj [("a", .int 1)]) rfl rfl rfl

/-- C5: building a payload with callback template
`https://x/\x7breferenceId\x7d` and reference id `req-123` renders the URL
`https://x/req-123`, places it in the payload, and registers the triple
(request id, provider id, reference id) in the Callback Correlation
Registry as part of `build_payload` itself — so the entry, retrievable by
`get` on the rendered URL with reference id `req-123`, is in force before
and during dispatch, whatever the dispatch oracle does. -/
theorem C5_callback_round_trip :
    ∀ (pid : String) (ctx : Option RequestContext) (reg : CallbackRegistry),
      build_payload pid cfgRoundTrip specRoundTrip ctx reg
        = .ok (roundTripPayload, roundTripReg pid ctx reg)
      ∧ registryGet (roundTripReg pid ctx reg) "https://x/req-123"
          = some (roundTripRecord pid ctx)
      ∧ (roundTripRecord pid ctx).reference_id = "req-123"
      ∧ ("callbackUrl", JValue.str "https://x/req-123") ∈ roundTripPayload
      ∧ ∀ oracle, (fetchSat oracle pid cfgRoundTrip specRoundTrip ctx reg).2
          = roundTripReg pid ctx reg := by
  intro pid ctx reg
  have hb : build_payload pid cfgRoundTrip specRoundTrip ctx reg
      = .ok (roundTripPayload, roundTripReg pid ctx reg) := rfl
  refine ⟨hb, by simp [registryGet, roundTripReg, List.lookup], rfl,
    by simp [roundTripPayload, basePayload], ?_⟩
  intro oracle
  simp only [fetchSat, hb]
  cases oracle roundTripPayload (roundTripReg pid ctx reg) with
  | error e => rfl
  | ok body =>
      cases h2 : handle_sync_response body with
      | error e => simp [h2]
      | ok checked => simp [h2]

/-- A needle occurring in `a` occurs in `a ++ b`. -/
theorem strContains_append_left (a b pat : String)
    (h : strContains a pat = true) : strContains (a ++ b) pat = true := by
  unfold strContains at h ⊢
  rw [List.any_eq_true] at h ⊢
  obtain ⟨i, hi, hpre⟩ := h
  rw [List.mem_range] at hi
  refine ⟨i, List.mem_range.mpr ?_, ?_⟩
  · rw [String.data_append, List.length_append]
    omega
  · have hle : i ≤ a.data.length := by omega
    rw [String.data_append, List.drop_append_of_le_length hle,
      List.isPrefixOf_iff_prefix]
    rw [List.isPrefixOf_iff_prefix] at hpre
    exact hpre.trans (List.prefix_append _ _)

/-- When every validation passes, `build_payload` succeeds with the
payload and registry state described by `buildSuccess`. -/
theorem build_payload_ok (pid : String) (config : JValue) (spec : ReportSpec)
    (ctx : Option RequestContext) (reg : CallbackRegistry)
    (rs : List String) (M : ℤ) (rt : String) (yc : ℤ)
    (h1 : resolve_region_ids config spec = .ok rs)
    (h2 : pyInt (jGetD config "max_region_ids" (.int 5)) = some M)
    (h3 : resolve_report_type config = .ok rt)
    (h4 : resolve_year_count config rt = .ok yc)
    (h5 : rs ≠ []) (h6 : (rs.length : ℤ) ≤ M) (h7 : spec.reference_id ≠ "") :
    build_payload pid config spec ctx reg
      = .ok (buildSuccess pid config spec ctx reg rs rt yc) := by
  unfold build_payload
  simp only [h1, h2, h3, h4]
  rw [if_neg h5, if_neg (by omega : ¬((rs.length : ℤ) > M)), if_neg h7]
  rcases h : render_callback_url (jGet config "callback_url") spec.reference_id
      ctx pid with _ | url
  · simp only [buildSuccess, basePayload, h]
  · simp only [buildSuccess, basePayload, h]
    split_ifs <;> rfl

/-- C8: for a spec whose other validations pass (regions resolve, max
converts, report type and year count valid, reference id present),
`build_payload` succeeds exactly when the resolved region count N satisfies
1 ≤ N ≤ the configured maximum (default 5 when the key is absent); N = 0
raises a request-validation failure, N greater than the maximum (with at
least one region) raises one whose message contains "at most", a missing
reference id raises one as well, and any `build_payload` failure
short-circuits the pipeline with the dispatch oracle never invoked. -/
theorem C8_region_count_gate :
    (∀ (pid : String) (config : JValue) (spec : ReportSpec)
      (ctx : Option RequestContext) (reg : CallbackRegistry)
      (rs : List String) (M : ℤ) (rt : String) (yc : ℤ),
      resolve_region_ids config spec = .ok rs →
      pyInt (jGetD config "max_region_ids" (.int 5)) = some M →
      resolve_report_type config = .ok rt →
      resolve_year_count config rt = .ok yc →
      ((spec.reference_id ≠ "" →
        ((∃ pr, build_payload pid config spec ctx reg = .ok pr)
          ↔ 1 ≤ rs.length ∧ (rs.length : ℤ) ≤ M))
      ∧ (rs = [] → build_payload pid config spec ctx reg
          = .error (.requestError
            "At least one regionId is required for SatSource requests"))
      ∧ (rs ≠ [] → (rs.length : ℤ) > M →
          build_payload pid config spec ctx reg
            = .error (.requestError
              ("SatSource supports at most " ++ toString M ++ " region IDs"))
          ∧ strContains
              ("SatSource supports at most " ++ toString M ++ " region IDs")
              "at most" = true)
      ∧ (rs ≠ [] → (rs.length : ℤ) ≤ M → spec.reference_id = "" →
          build_payload pid config spec ctx reg
            = .error (.requestError "SatSource requests require a referenceId"))
      ∧ (∀ e, build_payload pid config spec ctx reg = .error e →
          ∀ oracle, fetchSat oracle pid config spec ctx reg = (.error e, reg))))
    ∧ (∀ config : JValue, jFind config "max_region_ids" = none →
        pyInt (jGetD config "max_region_ids" (.int 5)) = some 5) := by
  constructor
  · intro pid config spec ctx reg rs M rt yc h1 h2 h3 h4
    have hempty : rs = [] → build_payload pid config spec ctx reg
        = .error (.requestError
          "At least one regionId is required for SatSource requests") := by
      intro hrz
      subst hrz
      unfold build_payload
      simp [h1, h2]
    have hbig : rs ≠ [] → (rs.length : ℤ) > M →
        build_payload pid config spec ctx reg
          = .error (.requestError
            ("SatSource supports at most " ++ toString M ++ " region IDs")) := by
      intro hnz hgt
      unfold build_payload
      simp only [h1, h2]
      rw [if_neg hnz, if_pos hgt]
    refine ⟨?_, hempty, fun hnz hgt => ⟨hbig hnz hgt, ?_⟩, ?_, ?_⟩
    · intro href
      constructor
      · rintro ⟨pr, hpr⟩
        by_contra hnb
        rcases Decidable.em (rs = []) with hrz | hnz
        · rw [hempty hrz] at hpr
          cases hpr
        · have hlen : 1 ≤ rs.length := by
            cases rs with
            | nil => exact absurd rfl hnz
            | cons a t => simp
          have hgt : (rs.length : ℤ) > M := by
            rcases not_and_or.mp hnb with h | h
            · omega
            · omega
          rw [hbig hnz hgt] at hpr
          cases hpr
      · rintro ⟨hlen, hle⟩
        have hnz : rs ≠ [] := by
          cases rs with
          | nil => simp at hlen
          | cons a t => simp
        exact ⟨_, build_payload_ok pid config spec ctx reg rs M rt yc
          h1 h2 h3 h4 hnz hle href⟩
    · have hpre : strContains "SatSource supports at most " "at most" = true := by
        decide
      have := strContains_append_left "SatSource supports at most "
        (toString M ++ " region IDs") "at most" hpre
      rwa [← String.append_assoc] at this
    · intro hnz hle hrefz
      unfold build_payload
      simp only [h1, h2]
      rw [if_neg hnz, if_neg (by omega : ¬((rs.length : ℤ) > M))]
      simp only [hrefz]
      rfl
    · intro e he oracle
      simp [fetchSat, he]
  · intro config h
    simp [jGetD, h, pyInt]

/-- C8 witness: the gate clauses are satisfiable at a concrete spec with
two resolved regions under the default maximum of 5. -/
theorem C8_region_count_gate_witness :
    ∃ pr, build_payload "sat-source" (.obj []) specRoundTrip none []
      = .ok pr :=
  ((C8_region_count_gate.1 "sat-source" (.obj []) specRoundTrip none []
      ["r1", "r2"] 5 "seasonal" 1 rfl rfl rfl rfl).1
    (by decide)).mpr ⟨by decide, by decide⟩

/-- C9 counterexample: the non-empty template `\x7brequestId\x7d` renders —
successfully — to the empty string when no request context exists
(`requestId` substitutes to `""`), and the built payload then carries no
callback URL at all, contradicting the claim that a non-empty template
always yields a callback URL in the payload. -/
theorem C9_counterexample :
    truthy (.str "\x7brequestId\x7d") = true
    ∧ builtCallbackValue (build_payload "sat-source"
        (.obj [("callback_url", .str "\x7brequestId\x7d")]) specMinimal none [])
      = some none :=
  ⟨rfl, rfl⟩

/-- C9 (amended): callback templating is best-effort — whenever placeholder
substitution fails for any reason, the unmodified template string is used
as the callback URL, and rendering never fails the request; a non-empty
template yields a callback URL in the payload whenever the rendered (or
fallen-back) string is non-empty, but a substitution that succeeds with an
empty result leaves the payload without a callback URL. -/
theorem C9_template_fallback :
    (∀ (template : JValue) (refid : String) (ctx : Option RequestContext)
        (pid : String),
      truthy template = true →
      pyFormat (pyStr template) (renderLookup refid ctx pid) = none →
      render_callback_url template refid ctx pid = some (pyStr template))
    ∧ (∀ (template : JValue) (refid : String) (ctx : Option RequestContext)
        (pid : String),
      truthy template = true →
      ∃ u, render_callback_url template refid ctx pid = some u)
    ∧ (∀ (pid : String) (config : JValue) (spec : ReportSpec)
        (ctx : Option RequestContext) (reg : CallbackRegistry)
        (rs : List String) (M : ℤ) (rt : String) (yc : ℤ) (u : String),
      resolve_region_ids config spec = .ok rs →
      pyInt (jGetD config "max_region_ids" (.int 5)) = some M →
      resolve_report_type config = .ok rt →
      resolve_year_count config rt = .ok yc →
      rs ≠ [] → (rs.length : ℤ) ≤ M → spec.reference_id ≠ "" →
      render_callback_url (jGet config "callback_url") spec.reference_id ctx pid
        = some u →
      builtCallbackValue (build_payload pid config spec ctx reg)
        = some (if u = "" then none else some (.str u))) := by
  refine ⟨?_, ?_, ?_⟩
  · intro template refid ctx pid ht hfmt
    simp [render_callback_url, ht, hfmt]
  · intro template refid ctx pid ht
    refine ⟨(pyFormat (pyStr template)
      (renderLookup refid ctx pid)).getD (pyStr template), ?_⟩
    simp [render_callback_url, ht]
  · intro pid config spec ctx reg rs M rt yc u h1 h2 h3 h4 h5 h6 h7 hrender
    rw [build_payload_ok pid config spec ctx reg rs M rt yc h1 h2 h3 h4 h5 h6 h7]
    unfold builtCallbackValue buildSuccess
    rw [hrender]
    by_cases hu : u = ""
    · subst hu
      simp [basePayload, List.lookup]
    · simp [hu, basePayload, List.lookup]

/-- C9 witness: the fallback clause is satisfiable — substitution of the
template `https://x/\x7bunknown\x7d` fails (unknown placeholder), and the
unmodified template becomes the callback URL. -/
theorem C9_template_fallback_witness :
    render_callback_url (.str "https://x/\x7bunknown\x7d") "r" none "p"
      = some "https://x/\x7bunknown\x7d" :=
  C9_template_fallback.1 (.str "https://x/\x7bunknown\x7d") "r" none "p" rfl rfl

/-- C10 counterexample: a record whose only precipitation value is a 0
stored under the final candidate key `precipProbability` parses to a data
point whose precipitation probability is 0.0 (present), not absent —
Python `or` returns its last operand verbatim when every operand is
falsy. -/
theorem C10_counterexample :
    parse_record (.obj [("date", .str "2024-01-01"), ("precipProbability", .int 0)])
      = .ok { date := ⟨2024, 1, 1⟩, temperature_max := none,
              temperature_min := none, precipitation_probability := some 0 } := by
  have h : parse_record (.obj [("date", .str "2024-01-01"),
      ("precipProbability", .int 0)])
      = .ok { date := ⟨2024, 1, 1⟩, temperature_max := none,
              temperature_min := none,
              precipitation_probability := some ((((0 : ℤ)) : ℚ) * 100) } := rfl
  rw [h]
  norm_num

/-- C10 (amended): the `or`-combination of candidate keys skips falsy
values under higher-priority keys, and the chain yields its last operand
verbatim, so a field is absent when the last evaluated candidate is absent
but present (as 0.0) when a 0 sits under the final candidate key;
a record with date and a zero `temperature_max` parses with max
temperature absent, while one with date and a zero `maxTemp` parses with
max temperature 0.0. -/
theorem C10_falsy_candidate_chain :
    (∀ v w : JValue, truthy v = false → pyOr v w = w)
    ∧ (∀ v w : JValue, truthy v = true → pyOr v w = v)
    ∧ parse_record (.obj [("date", .str "2024-01-01"), ("temperature_max", .int 0)])
        = .ok { date := ⟨2024, 1, 1⟩, temperature_max := none,
                temperature_min := none, precipitation_probability := none }
    ∧ parse_record (.obj [("date", .str "2024-01-01"), ("temperature_max", .int 0),
        ("temperatureMax", .int 0)])
        = .ok { date := ⟨2024, 1, 1⟩, temperature_max := none,
                temperature_min := none, precipitation_probability := none }
    ∧ parse_record (.obj [("date", .str "2024-01-01"), ("temperature_max", .int 0),
        ("temperatureMax", .float 21)])
        = .ok { date := ⟨2024, 1, 1⟩, temperature_max := some 21,
                temperature_min := none, precipitation_probability := none }
    ∧ parse_record (.obj [("date", .str "2024-01-01"), ("maxTemp", .int 0)])
        = .ok { date := ⟨2024, 1, 1⟩, temperature_max := some 0,
                temperature_min := none, precipitation_probability := none } := by
  refine ⟨?_, ?_, by rfl, by rfl, by rfl, ?_⟩
  · intro v w h
    simp [pyOr, h]
  · intro v w h
    simp [pyOr, h]
  · have h : parse_record (.obj [("date", .str "2024-01-01"), ("maxTemp", .int 0)])
        = .ok { date := ⟨2024, 1, 1⟩, temperature_max := some (((0 : ℤ) : ℚ)),
                temperature_min := none, precipitation_probability := none } := rfl
    rw [h]
    norm_num

/-- C10 witness: the falsy-skip clause is satisfiable at a concrete falsy
operand. -/
theorem C10_falsy_candidate_chain_witness :
    pyOr (.int 0) .null = .null :=
  C10_falsy_candidate_chain.1 (.int 0) .null rfl

/-- Every backoff wait recorded by the retry loop belongs to a retried
attempt: the waits extend the accumulator by one entry per retry-eligible
failure at consecutive attempt indices. -/
theorem chatAux_retry_sound (f : ℕ → Outcome) (n : ℕ) :
    ∀ (fuel a : ℕ) (last : Option FailureKind) (b : ℚ) (w : List ℚ),
      ∃ extra, (chatAux f n fuel a last b w).2 = w ++ extra
        ∧ ∀ i, i < extra.length → retryAttempt (f (a + i)) = true := by
  intro fuel
  induction fuel with
  | zero =>
      intro a last b w
      exact ⟨[], by simp [chatAux], by simp⟩
  | succ fuel ih =>
      intro a last b w
      unfold chatAux
      cases hres : outcomeResult (f a) with
      | inl d => exact ⟨[], by simp [hres], by simp⟩
      | inr fk =>
          by_cases hnr : nonRetryable fk = true
          · exact ⟨[], by simp [hres, hnr], by simp⟩
          · by_cases hlast : a = n - 1
            · exact ⟨[], by simp [hres, hnr, hlast], by simp⟩
            · obtain ⟨extra, hex, hprop⟩ := ih (a + 1) (some fk) (b * 2) (w ++ [b])
              refine ⟨b :: extra, ?_, ?_⟩
              · simp [hres, hnr, hlast, hex]
              · intro i hi
                cases i with
                | zero =>
                    simp only [Nat.add_zero]
                    unfold retryAttempt
                    rw [hres]
                    simp [hnr]
                | succ j =>
                    have hj := hprop j (by simpa using hi)
                    have harith : a + (j + 1) = a + 1 + j := by omega
                    rw [harith]
                    exact hj

/-- The waits recorded by the retry loop form a geometric sequence: with
the accumulator holding the first `k` powers of two and the backoff at
`2 ^ k`, the final wait list is an initial segment of the powers of two. -/
theorem chatAux_waits_geom (f : ℕ → Outcome) (n : ℕ) :
    ∀ (fuel a : ℕ) (last : Option FailureKind) (k : ℕ),
      ∃ m, k ≤ m ∧
        (chatAux f n fuel a last ((2 : ℚ) ^ k)
          ((List.range k).map (fun i => (2 : ℚ) ^ i))).2
        = (List.range m).map (fun i => (2 : ℚ) ^ i) := by
  intro fuel
  induction fuel with
  | zero =>
      intro a last k
      exact ⟨k, le_rfl, by simp [chatAux]⟩
  | succ fuel ih =>
      intro a last k
      unfold chatAux
      cases hres : outcomeResult (f a) with
      | inl d => exact ⟨k, le_rfl, by simp [hres]⟩
      | inr fk =>
          by_cases hnr : nonRetryable fk = true
          · exact ⟨k, le_rfl, by simp [hres, hnr]⟩
          · by_cases hlast : a = n - 1
            · exact ⟨k, le_rfl, by simp [hres, hnr, hlast]⟩
            · obtain ⟨m, hkm, hm⟩ := ih (a + 1) (some fk) (k + 1)
              refine ⟨m, by omega, ?_⟩
              have e1 : (2 : ℚ) ^ k * 2 = (2 : ℚ) ^ (k + 1) := by ring
              have e2 : (List.range k).map (fun i => (2 : ℚ) ^ i) ++ [(2 : ℚ) ^ k]
                  = (List.range (k + 1)).map (fun i => (2 : ℚ) ^ i) := by
                rw [List.range_succ, List.map_append]
                simp
              simp only [hres, hnr, hlast, Bool.false_eq_true, if_false,
                if_neg hlast]
              rw [e1, e2]
              exact hm

/-- With the attempt counter and remaining fuel tied to the retry bound,
the loop records at most `fuel - 1` additional waits (the final attempt
breaks instead of sleeping). -/
theorem chatAux_waits_len (f : ℕ → Outcome) (n : ℕ) :
    ∀ (fuel a : ℕ) (last : Option FailureKind) (b : ℚ) (w : List ℚ),
      a + fuel = n →
      (chatAux f n fuel a last b w).2.length ≤ w.length + (fuel - 1) := by
  intro fuel
  induction fuel with
  | zero =>
      intro a last b w _
      simp [chatAux]
  | succ fuel ih =>
      intro a last b w hinv
      unfold chatAux
      cases hres : outcomeResult (f a) with
      | inl d =>
          simp only [hres]
          omega
      | inr fk =>
          by_cases hnr : nonRetryable fk = true
          · simp only [hres, hnr, if_true]
            simp
          · by_cases hlast : a = n - 1
            · simp only [hres, hnr, Bool.false_eq_true, if_false, if_pos hlast]
              simp
            · have hfuel : 1 ≤ fuel := by omega
              have := ih (a + 1) (some fk) (b * 2) (w ++ [b]) (by omega)
              simp only [hres, hnr, Bool.false_eq_true, if_false, if_neg hlast]
              simp only [List.length_append, List.length_singleton] at this
              omega

/-- C6 counterexample: the first attempt fails because the response body
does not decode as JSON — a failure outside the claimed transient set
(connection errors, timeouts, the five statuses, and a decoded response
missing `choices`) — yet the loop sleeps once and the second attempt runs
and succeeds, so a non-listed failure was retried rather than aborting
with zero retries. -/
theorem C6_counterexample :
    chat badJsonThenOk 3 = (.ok okBody, [1])
    ∧ nonRetryable .badJson = false :=
  ⟨rfl, rfl⟩

/-- C6 (amended): the transport retries only on transient failures —
connection-level errors, timeouts, the HTTP statuses 408, 429, 500, 502,
503, a successful JSON response missing a truthy top-level `choices`, and
additionally a response body that fails to decode as JSON — waiting with
exponential backoff starting at one time unit and doubling each attempt,
with the retry count bounded to [1,6] by the settings validator (at most
n-1 sleeps for n attempts); any other HTTP failure status aborts
immediately with zero retries; exhausting all attempts fails with a
wrapped error carrying the last underlying cause.  Two 503 failures
followed by a success yield the successful result (waits 1 then 2). -/
theorem C6_retry_policy :
    (∀ (f : ℕ → Outcome) (n : ℕ) (d : JValue), 1 ≤ n →
      f 0 = .success d → truthy (jGet d "choices") = true →
      chat f n = (.ok d, []))
    ∧ (∀ (f : ℕ → Outcome) (n c : ℕ), 1 ≤ n →
      f 0 = .httpStatus c → transientStatuses.contains c = false →
      chat f n = (.failed (some (.status c)), []))
    ∧ (∀ (f : ℕ → Outcome) (n j : ℕ),
      j < (chat f n).2.length → retryAttempt (f j) = true)
    ∧ (∀ (f : ℕ → Outcome) (n : ℕ),
      (chat f n).2
        = (List.range ((chat f n).2.length)).map (fun i => (2 : ℚ) ^ i))
    ∧ (∀ (f : ℕ → Outcome) (n : ℕ), validMaxRetries n →
      (chat f n).2.length ≤ n - 1 ∧ n ≤ 6)
    ∧ (retryAttempt .connError = true ∧ retryAttempt .timeout = true
        ∧ retryAttempt .invalidJson = true
        ∧ retryAttempt (.success (.obj [])) = true
        ∧ ∀ c, c ∈ transientStatuses → retryAttempt (.httpStatus c) = true)
    ∧ chat twoFailuresThenOk 3 = (.ok okBody, [1, 2])
    ∧ chat (fun _ => .httpStatus 500) 2 = (.failed (some (.status 500)), [1]) := by
  refine ⟨?_, ?_, ?_, ?_, ?_, ⟨rfl, rfl, rfl, rfl, ?_⟩, ?_, by rfl⟩
  · intro f n d hn hf hch
    cases n with
    | zero => omega
    | succ m =>
        unfold chat chatAux
        simp [hf, outcomeResult, hch]
  · intro f n c hn hf hc
    cases n with
    | zero => omega
    | succ m =>
        have hmem : c ∉ transientStatuses := by simpa using hc
        unfold chat chatAux
        simp [hf, outcomeResult, nonRetryable, hmem]
  · intro f n j hj
    obtain ⟨extra, hex, hprop⟩ := chatAux_retry_sound f n n 0 none 1 []
    rw [show chat f n = chatAux f n n 0 none 1 [] from rfl, hex] at hj
    simpa using hprop j (by simpa using hj)
  · intro f n
    obtain ⟨m, _, hm⟩ := chatAux_waits_geom f n n 0 none 0
    have h0 : chat f n = chatAux f n n 0 none ((2 : ℚ) ^ 0)
        ((List.range 0).map (fun i => (2 : ℚ) ^ i)) := by
      simp [chat]
    rw [h0, hm, List.length_map, List.length_range]
  · intro f n hv
    refine ⟨?_, hv.2⟩
    have := chatAux_waits_len f n n 0 none 1 [] (by omega)
    simpa using this
  · intro c hc
    fin_cases hc <;> rfl
  · have h : chat twoFailuresThenOk 3 = (.ok okBody, [(1 : ℚ), 1 * 2]) := rfl
    rw [h]
    norm_num

/-- C6 witness: the hypothesis-bearing clauses are satisfiable — an
immediately successful call returns with no waits, and a 404 aborts with
zero retries. -/
theorem C6_retry_policy_witness :
    chat (fun _ => .success okBody) 3 = (.ok okBody, [])
    ∧ chat (fun _ => .httpStatus 404) 3 = (.failed (some (.status 404)), []) :=
  ⟨C6_retry_policy.1 (fun _ => .success okBody) 3 okBody (by omega) rfl rfl,
   C6_retry_policy.2.1 (fun _ => .httpStatus 404) 3 404 (by omega) rfl rfl⟩

end SatApp
